import Mathlib

/-!
Verification of the radar link-budget core of `radar_simconfig.py`.

The source module defines scalar configuration constants and six pure helper
functions (`range_to_time_delay`, `time_delay_to_range`, `db_to_linear`,
`linear_to_db`, `calculate_thermal_noise_power`, `calculate_snr_from_range`).
We embed them shallowly over the real numbers:

* Python floats are modelled by `ℝ`; `np.pi` (a plain Python `float`) by
  `Real.pi`; `np.log10 x` by `Real.logb 10 x` and `10 ** (x / 10)` by the
  real power `Real.rpow`.  The IEEE-754 special values that the numpy scalar
  function `np.log10` produces at singular arguments (`-inf` at `0`, `nan`
  at a negative, with only a `RuntimeWarning`) are abstracted by the junk
  values of the total `Real.logb`; no claim below depends on the numeric
  value at such a point, only on whether an error is raised there.
* The functions that the specification describes as fallible are embedded
  with result type `Except PyError ℝ`, so that the presence or absence of
  each error path is part of the model.  The source code contains no
  `raise` statement and no input validation, so `PyError.invalidInputError`
  is never constructed.  The one genuine error path is in
  `calculate_snr_from_range`: every operand of `numerator / denominator`
  there is a plain Python number (`np.pi` is a `float`, so no numpy value
  enters before the division), and plain-float division raises the built-in
  `ZeroDivisionError` exactly when the divisor is zero; the embedding
  branches on `denominator = 0` accordingly.  The divisions in the two
  delay conversions and in the noise-power bandwidth are by the non-zero
  constants `SPEED_OF_LIGHT`, `2` and `PULSE_WIDTH` and can never raise.
-/

namespace RadarSimConfig

noncomputable section

/-- `SPEED_OF_LIGHT = 3e8` (m/s). -/
def SPEED_OF_LIGHT : ℝ := 3e8

/-- `CARRIER_FREQUENCY = 10e9` (10 GHz). -/
def CARRIER_FREQUENCY : ℝ := 10e9

/-- `PULSE_WIDTH = 1e-6` (1 microsecond). -/
def PULSE_WIDTH : ℝ := 1e-6

/-- `TRANSMIT_POWER = 1e3` (1 kW). -/
def TRANSMIT_POWER : ℝ := 1e3

/-- `NOISE_FIGURE_DB = 5` (receiver noise figure, dB). -/
def NOISE_FIGURE_DB : ℝ := 5

/-- `SYSTEM_TEMPERATURE = 290` (kelvin). -/
def SYSTEM_TEMPERATURE : ℝ := 290

/-- `BOLTZMANN_CONSTANT = 1.38e-23` (J/K). -/
def BOLTZMANN_CONSTANT : ℝ := 1.38e-23

/-- The error kinds relevant to the embedded functions: the
`InvalidInputError` the specification attributes to domain violations (never
constructed by the source, which has no `raise` and no validation), and
Python's built-in `ZeroDivisionError`, which plain-float division raises
when the divisor is zero. -/
inductive PyError : Type
| invalidInputError : PyError
| zeroDivisionError : PyError

/-- `range_to_time_delay(range_m)`: returns `(2 * range_m) / SPEED_OF_LIGHT`
unconditionally (the source has no domain check, and the divisor is the
non-zero constant `SPEED_OF_LIGHT`). -/
def range_to_time_delay (range_m : ℝ) : Except PyError ℝ :=
  Except.ok ((2 * range_m) / SPEED_OF_LIGHT)

/-- `time_delay_to_range(delay_s)`: returns `(delay_s * SPEED_OF_LIGHT) / 2`
unconditionally (the source has no domain check, and the divisor is the
non-zero constant `2`). -/
def time_delay_to_range (delay_s : ℝ) : Except PyError ℝ :=
  Except.ok ((delay_s * SPEED_OF_LIGHT) / 2)

/-- `db_to_linear(db_value) = 10 ** (db_value / 10)` (real power). -/
def db_to_linear (db_value : ℝ) : ℝ :=
  (10 : ℝ) ^ (db_value / 10)

/-- `linear_to_db(linear_value) = 10 * np.log10(linear_value)`, returned
unconditionally: the source has no domain check, and the numpy scalar
`np.log10` never raises — it yields `-inf`/`nan` with only a warning at
non-positive arguments, abstracted here by the total `Real.logb`. -/
def linear_to_db (linear_value : ℝ) : Except PyError ℝ :=
  Except.ok (10 * Real.logb 10 linear_value)

/-- `calculate_thermal_noise_power()`: `N = k*T*B*F` with `B = 1/PULSE_WIDTH`
and `F = db_to_linear(NOISE_FIGURE_DB)`. -/
def calculate_thermal_noise_power : ℝ :=
  let bandwidth := 1 / PULSE_WIDTH
  let noise_figure_linear := db_to_linear NOISE_FIGURE_DB
  BOLTZMANN_CONSTANT * SYSTEM_TEMPERATURE * bandwidth * noise_figure_linear

/-- `calculate_snr_from_range(target_range, target_rcs)`: the monostatic
radar equation with unity gain, converted to dB via `linear_to_db`.  The
source has no domain check, but `snr_linear = numerator / denominator` is
plain Python float division (every operand, `np.pi` included, is a plain
float), which raises the built-in `ZeroDivisionError` exactly when
`denominator` is zero; the branch below models that single error path. -/
def calculate_snr_from_range (target_range target_rcs : ℝ) :
    Except PyError ℝ :=
  let wavelength := SPEED_OF_LIGHT / CARRIER_FREQUENCY
  let noise_power := calculate_thermal_noise_power
  let numerator := TRANSMIT_POWER * wavelength ^ 2 * target_rcs
  let denominator := (4 * Real.pi) ^ 3 * target_range ^ 4 * noise_power
  if denominator = 0 then Except.error PyError.zeroDivisionError
  else linear_to_db (numerator / denominator)

/-! ### Helper lemmas shared by several proofs -/

/-- The thermal noise power is a product of strictly positive factors. -/
lemma noise_power_pos : 0 < calculate_thermal_noise_power := by
  unfold calculate_thermal_noise_power db_to_linear BOLTZMANN_CONSTANT
    SYSTEM_TEMPERATURE PULSE_WIDTH NOISE_FIGURE_DB
  positivity

/-- The radar-equation denominator vanishes only at zero range. -/
lemma snr_denominator_ne_zero {R : ℝ} (hR : R ≠ 0) :
    (4 * Real.pi) ^ 3 * R ^ 4 * calculate_thermal_noise_power ≠ 0 := by
  have h1 : (4 * Real.pi) ^ 3 ≠ 0 := by positivity
  have h2 : R ^ 4 ≠ 0 := pow_ne_zero _ hR
  exact mul_ne_zero (mul_ne_zero h1 h2) (ne_of_gt noise_power_pos)

/-- Unfolding lemma: away from zero range the SNR function returns
`Except.ok` of the radar-equation value in dB. -/
lemma snr_eq {R : ℝ} (σ : ℝ) (hR : R ≠ 0) :
    calculate_snr_from_range R σ =
      Except.ok (10 * Real.logb 10
        (TRANSMIT_POWER * (SPEED_OF_LIGHT / CARRIER_FREQUENCY) ^ 2 * σ /
          ((4 * Real.pi) ^ 3 * R ^ 4 * calculate_thermal_noise_power))) := by
  simp only [calculate_snr_from_range, linear_to_db]
  rw [if_neg (snr_denominator_ne_zero hR)]

/-- The radar-equation numerator is positive for positive RCS. -/
lemma snr_numerator_pos {σ : ℝ} (hσ : 0 < σ) :
    0 < TRANSMIT_POWER * (SPEED_OF_LIGHT / CARRIER_FREQUENCY) ^ 2 * σ := by
  unfold TRANSMIT_POWER SPEED_OF_LIGHT CARRIER_FREQUENCY
  positivity

/-- The radar-equation denominator is positive for positive range. -/
lemma snr_denominator_pos {R : ℝ} (hR : 0 < R) :
    0 < (4 * Real.pi) ^ 3 * R ^ 4 * calculate_thermal_noise_power := by
  have hπ := Real.pi_pos
  have hN := noise_power_pos
  positivity

/-! ### Claim theorems -/

/-- C1: for every `targetRange > 0` and `targetRcs > 0`,
`calculate_snr_from_range` returns `linear_to_db` of
`(TRANSMIT_POWER * wavelength^2 * targetRcs) / ((4*pi)^3 * targetRange^4 * N)`
with `wavelength = SPEED_OF_LIGHT / CARRIER_FREQUENCY` and
`N = calculate_thermal_noise_power`; the range exponent in the denominator is
exactly 4. -/
theorem snr_matches_radar_equation (R σ : ℝ) (hR : 0 < R) (hσ : 0 < σ) :
    calculate_snr_from_range R σ =
      linear_to_db
        (TRANSMIT_POWER * (SPEED_OF_LIGHT / CARRIER_FREQUENCY) ^ 2 * σ /
          ((4 * Real.pi) ^ 3 * R ^ 4 * calculate_thermal_noise_power)) := by
  rw [snr_eq σ (ne_of_gt hR)]
  rfl

/-- Witness for C1 at the default scenario (range 5000 m, RCS 10 m²). -/
theorem snr_matches_radar_equation_witness :
    (0:ℝ) < 5000 ∧ (0:ℝ) < 10 ∧
    calculate_snr_from_range 5000 10 =
      linear_to_db
        (TRANSMIT_POWER * (SPEED_OF_LIGHT / CARRIER_FREQUENCY) ^ 2 * 10 /
          ((4 * Real.pi) ^ 3 * 5000 ^ 4 * calculate_thermal_noise_power)) :=
  ⟨by norm_num, by norm_num,
    snr_matches_radar_equation 5000 10 (by norm_num) (by norm_num)⟩

/-- C2: the thermal noise power is exactly
`BOLTZMANN_CONSTANT * SYSTEM_TEMPERATURE * B * F` with bandwidth
`B = 1 / PULSE_WIDTH` and noise-figure factor
`F = db_to_linear NOISE_FIGURE_DB`. -/
theorem thermal_noise_power_formula :
    calculate_thermal_noise_power =
      BOLTZMANN_CONSTANT * SYSTEM_TEMPERATURE * (1 / PULSE_WIDTH) *
        db_to_linear NOISE_FIGURE_DB := rfl

/-- C3 counterexample: the claim says `calculate_snr_from_range` fails with
`InvalidInputError` on every non-positive range or RCS.  In fact at range 0
it fails with Python's built-in `ZeroDivisionError` (plain-float division by
zero), not with `InvalidInputError`; and at RCS 0 and at range -1 it returns
a value (`np.log10` only warns at a non-positive argument, and `(-1)^4 = 1`
keeps the denominator non-zero). -/
theorem snr_not_invalid_input_error_on_nonpositive :
    calculate_snr_from_range 0 10 = Except.error PyError.zeroDivisionError ∧
    calculate_snr_from_range 0 10 ≠ Except.error PyError.invalidInputError ∧
    calculate_snr_from_range 5000 0 =
      Except.ok (10 * Real.logb 10
        (TRANSMIT_POWER * (SPEED_OF_LIGHT / CARRIER_FREQUENCY) ^ 2 * 0 /
          ((4 * Real.pi) ^ 3 * 5000 ^ 4 * calculate_thermal_noise_power))) ∧
    calculate_snr_from_range (-1) 10 =
      Except.ok (10 * Real.logb 10
        (TRANSMIT_POWER * (SPEED_OF_LIGHT / CARRIER_FREQUENCY) ^ 2 * 10 /
          ((4 * Real.pi) ^ 3 * (-1) ^ 4 * calculate_thermal_noise_power))) := by
  refine ⟨?_, ?_, ?_, ?_⟩
  · simp [calculate_snr_from_range]
  · simp [calculate_snr_from_range]
  · exact snr_eq 0 (by norm_num)
  · exact snr_eq 10 (by norm_num)

/-- C3 amended: `calculate_snr_from_range` performs no input validation and
never raises `InvalidInputError`.  Its only error path is the plain-float
division: at `targetRange = 0` (the only input zeroing the denominator) it
raises Python's built-in `ZeroDivisionError`; for every other input,
negative ranges and non-positive RCS included, it returns the
radar-equation dB value (numpy's `log10` yields `-inf`/`nan` with only a
warning at a non-positive linear SNR). -/
theorem snr_error_semantics (R σ : ℝ) :
    calculate_snr_from_range R σ =
      if R = 0 then Except.error PyError.zeroDivisionError
      else Except.ok (10 * Real.logb 10
        (TRANSMIT_POWER * (SPEED_OF_LIGHT / CARRIER_FREQUENCY) ^ 2 * σ /
          ((4 * Real.pi) ^ 3 * R ^ 4 * calculate_thermal_noise_power))) := by
  by_cases hR : R = 0
  · subst hR
    simp [calculate_snr_from_range]
  · rw [if_neg hR, snr_eq σ hR]

/-- C4 counterexample: the claim says `linear_to_db` fails with
`InvalidInputError` on non-positive input; in fact `linear_to_db 0` and
`linear_to_db (-1)` both return a value (`Except.ok`; numpy yields
`-inf`/`nan` with only a warning), never an error. -/
theorem linear_to_db_no_error_on_nonpositive :
    linear_to_db 0 = Except.ok (10 * Real.logb 10 0) ∧
    linear_to_db (-1) = Except.ok (10 * Real.logb 10 (-1)) := ⟨rfl, rfl⟩

/-- C4 amended: `linear_to_db` performs no validation: it returns
`Except.ok (10 * log10 linearValue)` for every input, never raising; at
non-positive inputs numpy yields `-inf`/`nan` (abstracted by the total
`Real.logb`), and for positive inputs the returned value is the genuine
`10 * log10 linearValue`. -/
theorem linear_to_db_total (x : ℝ) :
    linear_to_db x = Except.ok (10 * Real.logb 10 x) := rfl

/-- C5 counterexample: the claim says both delay conversions fail with
`InvalidInputError` on negative input; in fact `range_to_time_delay (-1)`
and `time_delay_to_range (-1)` both return a value (`Except.ok` of the bare
formula), never an error. -/
theorem delay_conversions_no_error_on_negative :
    range_to_time_delay (-1) = Except.ok (2 * (-1) / SPEED_OF_LIGHT) ∧
    time_delay_to_range (-1) = Except.ok ((-1) * SPEED_OF_LIGHT / 2) :=
  ⟨rfl, rfl⟩

/-- C5 amended: neither conversion has a domain guard:
`range_to_time_delay r` returns `Except.ok (2*r / SPEED_OF_LIGHT)` for every
`r` (negative included) and `time_delay_to_range d` returns
`Except.ok (SPEED_OF_LIGHT * d / 2)` for every `d`; `InvalidInputError` is
never raised. -/
theorem delay_conversions_total (r d : ℝ) :
    range_to_time_delay r = Except.ok (2 * r / SPEED_OF_LIGHT) ∧
    time_delay_to_range d = Except.ok (SPEED_OF_LIGHT * d / 2) :=
  ⟨rfl, congrArg Except.ok (by ring)⟩

/-- C6: for every `r ≥ 0`, converting a range to a two-way time delay and
back returns exactly `r` (over real arithmetic). -/
theorem range_delay_round_trip (r : ℝ) (h : 0 ≤ r) :
    (range_to_time_delay r).bind time_delay_to_range = Except.ok r := by
  show Except.ok (2 * r / SPEED_OF_LIGHT * SPEED_OF_LIGHT / 2) = Except.ok r
  congr 1
  rw [SPEED_OF_LIGHT]
  norm_num

/-- Witness for C6 at `r = 5000`. -/
theorem range_delay_round_trip_witness :
    (0:ℝ) ≤ 5000 ∧
    (range_to_time_delay 5000).bind time_delay_to_range = Except.ok 5000 :=
  ⟨by norm_num, range_delay_round_trip 5000 (by norm_num)⟩

/-- C7: for every real `x`, `linear_to_db (db_to_linear x) = x`: the two dB
conversions are mutually inverse, both using the base-10 power convention
`10 * log10` / `10 ^ (x/10)`. -/
theorem db_linear_round_trip (x : ℝ) :
    linear_to_db (db_to_linear x) = Except.ok x := by
  show Except.ok (10 * Real.logb 10 ((10:ℝ) ^ (x / 10))) = Except.ok x
  congr 1
  rw [Real.logb_rpow (by norm_num) (by norm_num)]
  ring

/-- C8: for fixed `targetRcs > 0` and ranges `0 < R1 < R2`, the SNR at `R2`
is strictly below the SNR at `R1`: `calculate_snr_from_range` is strictly
decreasing in the range argument. -/
theorem snr_strictly_decreasing (σ R1 R2 v1 v2 : ℝ) (hσ : 0 < σ)
    (hR1 : 0 < R1) (h12 : R1 < R2)
    (e1 : calculate_snr_from_range R1 σ = Except.ok v1)
    (e2 : calculate_snr_from_range R2 σ = Except.ok v2) : v2 < v1 := by
  rw [snr_eq σ (ne_of_gt hR1)] at e1
  rw [snr_eq σ (ne_of_gt (hR1.trans h12))] at e2
  have h1 := Except.ok.inj e1
  have h2 := Except.ok.inj e2
  subst h1
  subst h2
  have hnum := snr_numerator_pos hσ
  have hden1 := snr_denominator_pos hR1
  have hπ3 : (0:ℝ) < (4 * Real.pi) ^ 3 := by positivity
  have hpow : R1 ^ 4 < R2 ^ 4 := pow_lt_pow_left₀ h12 hR1.le (by norm_num)
  have hdenlt :
      (4 * Real.pi) ^ 3 * R1 ^ 4 * calculate_thermal_noise_power <
      (4 * Real.pi) ^ 3 * R2 ^ 4 * calculate_thermal_noise_power :=
    mul_lt_mul_of_pos_right (mul_lt_mul_of_pos_left hpow hπ3) noise_power_pos
  have hdivlt := div_lt_div_of_pos_left hnum hden1 hdenlt
  have hq2 :
      0 < TRANSMIT_POWER * (SPEED_OF_LIGHT / CARRIER_FREQUENCY) ^ 2 * σ /
        ((4 * Real.pi) ^ 3 * R2 ^ 4 * calculate_thermal_noise_power) :=
    div_pos hnum (hden1.trans hdenlt)
  have hlog := Real.logb_lt_logb (show (1:ℝ) < 10 by norm_num) hq2 hdivlt
  linarith

/-- Witness for C8 with RCS 10 m² and ranges 1000 m < 2000 m. -/
theorem snr_strictly_decreasing_witness :
    10 * Real.logb 10
      (TRANSMIT_POWER * (SPEED_OF_LIGHT / CARRIER_FREQUENCY) ^ 2 * 10 /
        ((4 * Real.pi) ^ 3 * 2000 ^ 4 * calculate_thermal_noise_power)) <
    10 * Real.logb 10
      (TRANSMIT_POWER * (SPEED_OF_LIGHT / CARRIER_FREQUENCY) ^ 2 * 10 /
        ((4 * Real.pi) ^ 3 * 1000 ^ 4 * calculate_thermal_noise_power)) :=
  snr_strictly_decreasing 10 1000 2000 _ _ (by norm_num) (by norm_num)
    (by norm_num) (snr_eq 10 (by norm_num)) (snr_eq 10 (by norm_num))

/-- C9: doubling the range divides the linear SNR by exactly 16, so the dB
value drops by exactly `10 * log10 16`:
`snr(2R, σ) = snr(R, σ) - 10 * log10 16`. -/
theorem snr_doubling_scaling (R σ v1 v2 : ℝ) (hR : 0 < R) (hσ : 0 < σ)
    (e1 : calculate_snr_from_range R σ = Except.ok v1)
    (e2 : calculate_snr_from_range (2 * R) σ = Except.ok v2) :
    v2 = v1 - 10 * Real.logb 10 16 := by
  have h2R : (2:ℝ) * R ≠ 0 := by positivity
  rw [snr_eq σ (ne_of_gt hR)] at e1
  rw [snr_eq σ h2R] at e2
  have h1 := Except.ok.inj e1
  have h2 := Except.ok.inj e2
  subst h1
  subst h2
  have hnum := snr_numerator_pos hσ
  have hden := snr_denominator_pos hR
  have key : (4 * Real.pi) ^ 3 * (2 * R) ^ 4 * calculate_thermal_noise_power =
      (4 * Real.pi) ^ 3 * R ^ 4 * calculate_thermal_noise_power * 16 := by
    ring
  rw [key, ← div_div,
    Real.logb_div (ne_of_gt (div_pos hnum hden)) (by norm_num)]
  ring

/-- Witness for C9 at range 1000 m, RCS 10 m². -/
theorem snr_doubling_scaling_witness :
    10 * Real.logb 10
      (TRANSMIT_POWER * (SPEED_OF_LIGHT / CARRIER_FREQUENCY) ^ 2 * 10 /
        ((4 * Real.pi) ^ 3 * (2 * 1000) ^ 4 * calculate_thermal_noise_power)) =
    10 * Real.logb 10
      (TRANSMIT_POWER * (SPEED_OF_LIGHT / CARRIER_FREQUENCY) ^ 2 * 10 /
        ((4 * Real.pi) ^ 3 * 1000 ^ 4 * calculate_thermal_noise_power)) -
      10 * Real.logb 10 16 :=
  snr_doubling_scaling 1000 10 _ _ (by norm_num) (by norm_num)
    (snr_eq 10 (by norm_num)) (snr_eq 10 (by norm_num))

/-- C10: `db_to_linear` is strictly positive on every real input (so the
noise-figure factor inside `calculate_thermal_noise_power` is positive), and
`calculate_thermal_noise_power` itself is strictly positive, hence a legal
(strictly positive) argument for `linear_to_db`. -/
theorem db_to_linear_pos_and_noise_power_pos :
    (∀ x : ℝ, 0 < db_to_linear x) ∧ 0 < calculate_thermal_noise_power := by
  constructor
  · intro x
    exact Real.rpow_pos_of_pos (by norm_num) _
  · exact noise_power_pos

end

end RadarSimConfig
